import Mathlib

/-!
Shallow embedding of the tech-roadmap backend (src/backend/app) in Lean 4.

The embedding translates the Python source into pure Lean functions:
  * SQLAlchemy rows become structures; the project table is a `List Project`
    (the store), the work-session table a `List WorkSession`.
  * Python floats (`time_spent_hours`, coordinates) are modelled as exact
    rationals; `round(x, 1)` is modelled as exact round-half-to-even at one
    decimal, which is what CPython computes on exactly-representable inputs.
  * Fallible operations (row not found, primary-key violation) return `Option`.
  * Timestamps and result ordering are irrelevant to every property proved
    here and are not modelled (`get_projects_by_user` orders by
    `(level, created_at)`; the resolver and all proved properties are
    order-independent).
-/

namespace TechRoadmap

/-- `ProjectStatus` enum from `app/models.py`. -/
inductive ProjectStatus where
  | locked
  | unlocked
  | in_progress
  | done
deriving DecidableEq

/-- `Priority` enum from `app/models.py`. -/
inductive Priority where
  | low
  | medium
  | high
deriving DecidableEq

/-- `SessionType` enum from `app/models.py`. -/
inductive SessionType where
  | focus
  | pomodoro
  | manual
deriving DecidableEq

/-- `WorkSession` row from `app/models.py`. -/
structure WorkSession where
  id : String
  project_id : String
  start_time : Int
  end_time : Option Int
  duration_seconds : Int
  type : SessionType
  notes : Option String
  task_id : Option String
deriving DecidableEq

/-- `SubTask` checklist item (stored as JSON on the project row). -/
structure SubTask where
  id : String
  text : String
  isCompleted : Bool
deriving DecidableEq

/-- `Resource` item (stored as JSON on the project row). -/
structure Resource where
  id : String
  label : String
  url : String
deriving DecidableEq

/-- `Project` row from `app/models.py`, together with its loaded
`sessions` relationship (`selectinload(Project.sessions)`).
`id` alone is the primary key; `user_id` is a plain indexed column. -/
structure Project where
  id : String
  user_id : String
  title : String
  level : Int
  status : ProjectStatus
  category : String
  description : String
  position : ℚ × ℚ
  dependencies : List String
  tech_stack : List String
  checklist : List SubTask
  resources : List Resource
  complexity : Option Int
  priority : Option Priority
  github_url : Option String
  notes : Option String
  time_spent_hours : ℚ
  sessions : List WorkSession
deriving DecidableEq

/-- `get_projects_by_user`: all project rows of one user (`crud.py`). -/
def get_projects_by_user (store : List Project) (uid : String) : List Project :=
  store.filter (fun p => p.user_id == uid)

/-- `completed_ids = {p.id for p in projects if p.status == ProjectStatus.DONE}`
(`check_project_dependencies`, `crud.py`). -/
def completedIds (projects : List Project) : List String :=
  (projects.filter (fun p => p.status == ProjectStatus.done)).map (fun p => p.id)

/-- `all_deps_met = all(dep_id in completed_ids for dep_id in project.dependencies)`
(`check_project_dependencies`, `crud.py`). -/
def depsMet (completed : List String) (p : Project) : Bool :=
  p.dependencies.all (fun d => completed.contains d)

/-- The loop body of `check_project_dependencies` (`crud.py`) applied to one
project row, with the completed-id set fixed. -/
def resolveProject (completed : List String) (p : Project) : Project :=
  if p.status = ProjectStatus.done ∨ p.status = ProjectStatus.in_progress then p
  else if depsMet completed p ∧ p.status = ProjectStatus.locked then
    { p with status := ProjectStatus.unlocked }
  else if ¬ (depsMet completed p : Prop) ∧ p.status = ProjectStatus.unlocked then
    { p with status := ProjectStatus.locked }
  else p

/-- `check_project_dependencies(db, user_id)` from `crud.py`: one resolver
pass over the given user's project set. The completed set is computed once,
from the pre-pass statuses; rows of other users are untouched. -/
def check_project_dependencies (store : List Project) (uid : String) : List Project :=
  let completed := completedIds (get_projects_by_user store uid)
  store.map (fun p => if p.user_id == uid then resolveProject completed p else p)

/-- `get_project_by_id(db, project_id, user_id)` from `crud.py`: single row
matching the id, scoped by the owning user id (`scalar_one_or_none`; the id
column is the primary key, so at most one row can match). -/
def get_project_by_id (store : List Project) (pid uid : String) : Option Project :=
  store.find? (fun p => p.id == pid && p.user_id == uid)

/-- Python `round(x, 1)` modelled exactly: round half to even at the integer
scale. CPython rounds a float to the nearest one-decimal value with ties to
even; on the exactly-representable values arising here this is the result. -/
def roundHalfToEven (q : ℚ) : ℤ :=
  if q - ⌊q⌋ < 1 / 2 then ⌊q⌋
  else if 1 / 2 < q - ⌊q⌋ then ⌊q⌋ + 1
  else if ⌊q⌋ % 2 = 0 then ⌊q⌋ else ⌊q⌋ + 1

/-- Python `round(x, 1)`: round to one decimal place, ties to even. -/
def pythonRound1 (q : ℚ) : ℚ := (roundHalfToEven (10 * q) : ℚ) / 10

/-- `sum(s.duration_seconds for s in sessions)`. -/
def sessionsTotalSeconds (ss : List WorkSession) : ℤ :=
  (ss.map (fun s => s.duration_seconds)).sum

/-- `round(total_seconds / 3600, 1)`: the time aggregator of `crud.py`. -/
def recomputedHours (ss : List WorkSession) : ℚ :=
  pythonRound1 ((sessionsTotalSeconds ss : ℚ) / 3600)

/-- `WorkSessionCreate` request schema from `app/schemas.py`. -/
structure WorkSessionCreate where
  start_time : Int
  end_time : Option Int
  duration_seconds : Int
  type : SessionType
  notes : Option String
  task_id : Option String
deriving DecidableEq

/-- The `WorkSession(...)` row built by `add_session_to_project` (`crud.py`);
the id is generated by `generate_id`, passed here as `sid`. -/
def mkWorkSession (sid pid : String) (sd : WorkSessionCreate) : WorkSession :=
  ⟨sid, pid, sd.start_time, sd.end_time, sd.duration_seconds, sd.type, sd.notes, sd.task_id⟩

/-- The mutation `add_session_to_project` performs on the matched project row:
append the session and recompute `time_spent_hours` as
`round((sum(s.duration_seconds for s in project.sessions) + duration) / 3600, 1)`. -/
def applyAddSession (p : Project) (s : WorkSession) : Project :=
  { p with
    sessions := p.sessions ++ [s],
    time_spent_hours :=
      pythonRound1 (((sessionsTotalSeconds p.sessions + s.duration_seconds : ℤ) : ℚ) / 3600) }

/-- `add_session_to_project(db, project_id, user_id, session_data)` from
`crud.py`: `None` when the scoped project lookup fails, otherwise the updated
store and the inserted session row. -/
def add_session_to_project (store : List Project) (pid uid sid : String)
    (sd : WorkSessionCreate) : Option (List Project × WorkSession) :=
  match get_project_by_id store pid uid with
  | none => none
  | some _ =>
    some (store.map (fun q =>
      if q.id == pid && q.user_id == uid then applyAddSession q (mkWorkSession sid pid sd)
      else q), mkWorkSession sid pid sd)

/-- `ProjectUpdate` request schema from `app/schemas.py`; every field is
optional and `exclude_unset=True` means an absent field leaves the column
unchanged. -/
structure ProjectUpdate where
  title : Option String
  level : Option Int
  status : Option ProjectStatus
  category : Option String
  description : Option String
  position : Option (ℚ × ℚ)
  dependencies : Option (List String)
  tech_stack : Option (List String)
  complexity : Option Int
  priority : Option Priority
  checklist : Option (List SubTask)
  resources : Option (List Resource)
  github_url : Option String
  notes : Option String
  time_spent_hours : Option ℚ
deriving DecidableEq

/-- The per-row effect of `update_project` (`crud.py`): apply every set field
of the patch, except that `time_spent_hours` is recomputed from the project's
sessions whenever any session exists (the caller-supplied value is
overwritten). -/
def applyUpdateData (p : Project) (u : ProjectUpdate) : Project :=
  { p with
    title := u.title.getD p.title,
    level := u.level.getD p.level,
    status := u.status.getD p.status,
    category := u.category.getD p.category,
    description := u.description.getD p.description,
    position := u.position.getD p.position,
    dependencies := u.dependencies.getD p.dependencies,
    tech_stack := u.tech_stack.getD p.tech_stack,
    complexity := (u.complexity.map some).getD p.complexity,
    priority := (u.priority.map some).getD p.priority,
    checklist := u.checklist.getD p.checklist,
    resources := u.resources.getD p.resources,
    github_url := (u.github_url.map some).getD p.github_url,
    notes := (u.notes.map some).getD p.notes,
    time_spent_hours :=
      (if p.sessions.isEmpty then u.time_spent_hours.getD p.time_spent_hours
       else recomputedHours p.sessions) }

/-- `update_project(db, project_id, user_id, project_data)` from `crud.py`:
`None` when the scoped lookup fails; otherwise the row is patched and a
resolver pass runs over the user's project set. -/
def update_project (store : List Project) (pid uid : String)
    (u : ProjectUpdate) : Option (List Project) :=
  match get_project_by_id store pid uid with
  | none => none
  | some _ =>
    some (check_project_dependencies
      (store.map (fun q =>
        if q.id == pid && q.user_id == uid then applyUpdateData q u else q)) uid)

/-- `delete_project(db, project_id, user_id)` from `crud.py`: `None` (False)
when the scoped lookup fails; otherwise the deleted id is purged from the
dependency list of every project of that user, the row is deleted, and a
resolver pass runs. -/
def delete_project (store : List Project) (pid uid : String) : Option (List Project) :=
  match get_project_by_id store pid uid with
  | none => none
  | some _ =>
    let purged := store.map (fun q =>
      if q.user_id == uid then
        { q with dependencies := q.dependencies.filter (fun d => d != pid) }
      else q)
    some (check_project_dependencies
      (purged.filter (fun q => !(q.id == pid && q.user_id == uid))) uid)

/-- Insertion into a list sorted by `start_time` descending. -/
def insertByStartDesc (s : WorkSession) : List WorkSession → List WorkSession
  | [] => [s]
  | t :: ts => if t.start_time ≤ s.start_time then s :: t :: ts else t :: insertByStartDesc s ts

/-- `order_by(WorkSession.start_time.desc())` modelled as insertion sort. -/
def sortByStartDesc (ss : List WorkSession) : List WorkSession :=
  ss.foldr insertByStartDesc []

/-- `get_sessions_by_project(db, project_id, user_id)` from `crud.py`:
empty when the scoped project lookup fails, otherwise all sessions of the
project ordered by start time descending. -/
def get_sessions_by_project (store : List Project) (table : List WorkSession)
    (pid uid : String) : List WorkSession :=
  match get_project_by_id store pid uid with
  | none => []
  | some _ => sortByStartDesc (table.filter (fun s => s.project_id == pid))

-- ---------------------------------------------------------------------------
-- Basic lemmas about the resolver
-- ---------------------------------------------------------------------------

theorem resolveProject_user_id (c : List String) (p : Project) :
    (resolveProject c p).user_id = p.user_id := by
  unfold resolveProject; split
  · rfl
  · split
    · rfl
    · split <;> rfl

theorem resolveProject_id (c : List String) (p : Project) :
    (resolveProject c p).id = p.id := by
  unfold resolveProject; split
  · rfl
  · split
    · rfl
    · split <;> rfl

theorem resolveProject_of_done (c : List String) (p : Project)
    (h : p.status = ProjectStatus.done) : resolveProject c p = p := by
  unfold resolveProject
  rw [if_pos (Or.inl h)]

theorem resolveProject_of_in_progress (c : List String) (p : Project)
    (h : p.status = ProjectStatus.in_progress) : resolveProject c p = p := by
  unfold resolveProject
  rw [if_pos (Or.inr h)]

theorem resolveProject_nonterminal (c : List String) (p : Project)
    (h1 : p.status ≠ ProjectStatus.done) (h2 : p.status ≠ ProjectStatus.in_progress) :
    resolveProject c p =
      { p with status := if depsMet c p then ProjectStatus.unlocked else ProjectStatus.locked } := by
  obtain ⟨i, u, t, l, s, ca, de, po, dp, ts, cl, re, cx, pr, gh, no, th, se⟩ := p
  cases s with
  | done => exact absurd rfl h1
  | in_progress => exact absurd rfl h2
  | locked =>
    cases hm : depsMet c ⟨i, u, t, l, ProjectStatus.locked, ca, de, po, dp, ts, cl, re, cx, pr, gh, no, th, se⟩ with
    | true => simp [resolveProject, hm]
    | false => simp [resolveProject, hm]
  | unlocked =>
    cases hm : depsMet c ⟨i, u, t, l, ProjectStatus.unlocked, ca, de, po, dp, ts, cl, re, cx, pr, gh, no, th, se⟩ with
    | true => simp [resolveProject, hm]
    | false => simp [resolveProject, hm]

theorem resolveProject_eq_set_status (c : List String) (p : Project) :
    resolveProject c p = { p with status := (resolveProject c p).status } := by
  unfold resolveProject; split
  · rfl
  · split
    · rfl
    · split <;> rfl

theorem resolveProject_dependencies (c : List String) (p : Project) :
    (resolveProject c p).dependencies = p.dependencies := by
  rw [resolveProject_eq_set_status]

theorem resolveProject_sessions (c : List String) (p : Project) :
    (resolveProject c p).sessions = p.sessions := by
  rw [resolveProject_eq_set_status]

theorem resolveProject_time_spent_hours (c : List String) (p : Project) :
    (resolveProject c p).time_spent_hours = p.time_spent_hours := by
  rw [resolveProject_eq_set_status]

theorem resolveProject_status_done_iff (c : List String) (p : Project) :
    (resolveProject c p).status = ProjectStatus.done ↔ p.status = ProjectStatus.done := by
  by_cases h1 : p.status = ProjectStatus.done
  · rw [resolveProject_of_done c p h1]
  · by_cases h2 : p.status = ProjectStatus.in_progress
    · rw [resolveProject_of_in_progress c p h2]
    · rw [resolveProject_nonterminal c p h1 h2]
      constructor
      · intro h
        by_cases hm : depsMet c p <;> simp [hm] at h
      · intro h; exact absurd h h1

theorem resolveProject_idem (c : List String) (p : Project) :
    resolveProject c (resolveProject c p) = resolveProject c p := by
  by_cases h1 : p.status = ProjectStatus.done
  · rw [resolveProject_of_done c p h1, resolveProject_of_done c p h1]
  · by_cases h2 : p.status = ProjectStatus.in_progress
    · rw [resolveProject_of_in_progress c p h2, resolveProject_of_in_progress c p h2]
    · rw [resolveProject_nonterminal c p h1 h2]
      by_cases hm : depsMet c p
      · have hdm : depsMet c { p with status := ProjectStatus.unlocked } = depsMet c p := rfl
        rw [if_pos hm]
        rw [resolveProject_nonterminal c _ (by simp) (by simp), if_pos (by rw [hdm]; exact hm)]
      · have hdm : depsMet c { p with status := ProjectStatus.locked } = depsMet c p := rfl
        rw [if_neg hm]
        rw [resolveProject_nonterminal c _ (by simp) (by simp), if_neg (by rw [hdm]; exact hm)]

theorem str_contains_iff_mem (l : List String) (a : String) :
    l.contains a = true ↔ a ∈ l := by simp

theorem depsMet_iff_sibling_done (store : List Project) (uid : String) (p : Project) :
    depsMet (completedIds (get_projects_by_user store uid)) p = true ↔
      ∀ d ∈ p.dependencies, ∃ q ∈ store,
        q.user_id = uid ∧ q.id = d ∧ q.status = ProjectStatus.done := by
  simp only [depsMet, completedIds, get_projects_by_user, List.all_eq_true]
  constructor
  · intro h d hd
    have := h d hd
    rw [str_contains_iff_mem] at this
    simp only [List.mem_map, List.mem_filter, beq_iff_eq] at this
    obtain ⟨q, ⟨hq, hqd⟩, hqid⟩ := this
    exact ⟨q, hq.1, hq.2, hqid, hqd⟩
  · intro h d hd
    rw [str_contains_iff_mem]
    simp only [List.mem_map, List.mem_filter, beq_iff_eq]
    obtain ⟨q, hq, hqu, hqid, hqdone⟩ := h d hd
    exact ⟨q, ⟨⟨hq, hqu⟩, hqdone⟩, hqid⟩

/-- C1: a single resolver pass over one user's project set leaves `done` and
`in_progress` projects completely unchanged, and gives every other project
status `unlocked` exactly when every id in its dependency list is the id of a
sibling project (same user) whose status is `done`, and `locked` otherwise;
an empty dependency list is vacuously met, an id absent from the user's
project set is never met, and a project with empty dependencies and status
`locked` always becomes `unlocked`. The pass is total (it never fails). -/
theorem resolver_pass_characterization (store : List Project) (uid : String)
    (i : ℕ) (h : i < store.length) (hu : store[i].user_id = uid) :
    ((store[i].status = ProjectStatus.done ∨
        store[i].status = ProjectStatus.in_progress) →
      (check_project_dependencies store uid)[i]? = some store[i]) ∧
    (store[i].status ≠ ProjectStatus.done →
      store[i].status ≠ ProjectStatus.in_progress →
      (check_project_dependencies store uid)[i]? =
        some { store[i] with status :=
            (if depsMet (completedIds (get_projects_by_user store uid)) store[i]
             then ProjectStatus.unlocked else ProjectStatus.locked) }) ∧
    (depsMet (completedIds (get_projects_by_user store uid)) store[i] = true ↔
      ∀ d ∈ store[i].dependencies, ∃ q ∈ store,
        q.user_id = uid ∧ q.id = d ∧ q.status = ProjectStatus.done) ∧
    (store[i].dependencies = [] → store[i].status = ProjectStatus.locked →
      (check_project_dependencies store uid)[i]? =
        some { store[i] with status := ProjectStatus.unlocked }) := by
  have hget : (check_project_dependencies store uid)[i]? =
      some (resolveProject (completedIds (get_projects_by_user store uid)) store[i]) := by
    simp only [check_project_dependencies, List.getElem?_map,
      List.getElem?_eq_getElem h, Option.map_some']
    rw [if_pos (by simpa using hu)]
  refine ⟨?_, ?_, depsMet_iff_sibling_done store uid _, ?_⟩
  · rintro (hd | hd)
    · rw [hget, resolveProject_of_done _ _ hd]
    · rw [hget, resolveProject_of_in_progress _ _ hd]
  · intro h1 hp
    rw [hget, resolveProject_nonterminal _ _ h1 hp]
  · intro hdep hlock
    rw [hget, resolveProject_nonterminal _ _ (by rw [hlock]; simp) (by rw [hlock]; simp)]
    have hm : depsMet (completedIds (get_projects_by_user store uid)) store[i] = true := by
      simp [depsMet, hdep]
    rw [hm]
    simp

/-- C1 witness: in a concrete two-project set of one user, the pass leaves
the done project unchanged and unlocks the locked project whose dependency
list is empty. -/
theorem resolver_pass_characterization_witness :
    (1 < ([⟨"a", "u1", "A", 1, ProjectStatus.done, "c", "", (0, 0), [],
        [], [], [], none, none, none, none, 0, []⟩,
       ⟨"b", "u1", "B", 1, ProjectStatus.locked, "c", "", (0, 0), [],
        [], [], [], none, none, none, none, 0, []⟩] : List Project).length) ∧
    (check_project_dependencies
        [⟨"a", "u1", "A", 1, ProjectStatus.done, "c", "", (0, 0), [],
          [], [], [], none, none, none, none, 0, []⟩,
         ⟨"b", "u1", "B", 1, ProjectStatus.locked, "c", "", (0, 0), [],
          [], [], [], none, none, none, none, 0, []⟩] "u1")[1]? =
      some ⟨"b", "u1", "B", 1, ProjectStatus.unlocked, "c", "", (0, 0), [],
        [], [], [], none, none, none, none, 0, []⟩ := by
  refine ⟨by norm_num, ?_⟩
  have h := (resolver_pass_characterization
    [⟨"a", "u1", "A", 1, ProjectStatus.done, "c", "", (0, 0), [],
      [], [], [], none, none, none, none, 0, []⟩,
     ⟨"b", "u1", "B", 1, ProjectStatus.locked, "c", "", (0, 0), [],
      [], [], [], none, none, none, none, 0, []⟩] "u1" 1 (by norm_num) rfl).2.2.2
  rw [h (by decide) (by decide)]
  rfl

-- ---------------------------------------------------------------------------
-- Idempotence of the resolver pass (C2)
-- ---------------------------------------------------------------------------

theorem check_preserves_user_rows (store : List Project) (uid : String) :
    get_projects_by_user (check_project_dependencies store uid) uid =
      (get_projects_by_user store uid).map
        (resolveProject (completedIds (get_projects_by_user store uid))) := by
  simp only [check_project_dependencies, get_projects_by_user]
  rw [List.filter_map]
  have hpred : ∀ p ∈ store,
      ((fun q => q.user_id == uid) ∘ fun p =>
        if p.user_id == uid then
          resolveProject (completedIds (List.filter (fun p => p.user_id == uid) store)) p
        else p) p = (fun q => q.user_id == uid) p := by
    intro p _
    by_cases hp : p.user_id == uid
    · simp only [Function.comp_apply, if_pos hp, resolveProject_user_id]
    · simp only [Function.comp_apply, if_neg hp]
  rw [List.filter_congr hpred]
  apply List.map_congr_left
  intro p hp
  rw [List.mem_filter] at hp
  rw [if_pos hp.2]

theorem completedIds_map_resolve (ps : List Project) (c : List String) :
    completedIds (ps.map (resolveProject c)) = completedIds ps := by
  simp only [completedIds]
  rw [List.filter_map]
  have hpred : ∀ p ∈ ps,
      ((fun q => q.status == ProjectStatus.done) ∘ resolveProject c) p =
        (fun q => q.status == ProjectStatus.done) p := by
    intro p _
    simp only [Function.comp_apply]
    by_cases hd : p.status = ProjectStatus.done
    · rw [resolveProject_of_done c p hd]
    · have hnd : (resolveProject c p).status ≠ ProjectStatus.done :=
        fun hcon => hd ((resolveProject_status_done_iff c p).mp hcon)
      simp [hd, hnd]
  rw [List.filter_congr hpred, List.map_map]
  apply List.map_congr_left
  intro p hp
  rw [List.mem_filter, beq_iff_eq] at hp
  simp only [Function.comp_apply]
  rw [resolveProject_of_done c p hp.2]

/-- C2: the resolver pass is idempotent — applying
`check_project_dependencies` twice to one user's project set, with no
intervening mutation, yields exactly the same store as applying it once. -/
theorem resolver_pass_idempotent (store : List Project) (uid : String) :
    check_project_dependencies (check_project_dependencies store uid) uid =
      check_project_dependencies store uid := by
  have hc : completedIds (get_projects_by_user (check_project_dependencies store uid) uid) =
      completedIds (get_projects_by_user store uid) := by
    rw [check_preserves_user_rows, completedIds_map_resolve]
  conv_lhs => rw [check_project_dependencies]
  rw [hc]
  simp only [check_project_dependencies, List.map_map]
  apply List.map_congr_left
  intro p _
  by_cases hp : p.user_id == uid
  · simp only [Function.comp_apply, if_pos hp]
    rw [if_pos (by rwa [resolveProject_user_id])]
    exact resolveProject_idem _ p
  · simp only [Function.comp_apply, if_neg hp, if_neg hp]

-- ---------------------------------------------------------------------------
-- Project deletion purges the deleted id and re-resolves (C3)
-- ---------------------------------------------------------------------------

theorem branch_resolve_dependencies (c : List String) (uid : String) (p : Project) :
    (if p.user_id == uid then resolveProject c p else p).dependencies = p.dependencies := by
  split
  · exact resolveProject_dependencies c p
  · rfl

theorem branch_resolve_user_id (c : List String) (uid : String) (p : Project) :
    (if p.user_id == uid then resolveProject c p else p).user_id = p.user_id := by
  split
  · exact resolveProject_user_id c p
  · rfl

theorem branch_resolve_id (c : List String) (uid : String) (p : Project) :
    (if p.user_id == uid then resolveProject c p else p).id = p.id := by
  split
  · exact resolveProject_id c p
  · rfl

theorem purge_user_id (uid pid : String) (r : Project) :
    (if r.user_id == uid then
      { r with dependencies := r.dependencies.filter (fun d => d != pid) }
    else r).user_id = r.user_id := by
  split <;> rfl

theorem purge_id (uid pid : String) (r : Project) :
    (if r.user_id == uid then
      { r with dependencies := r.dependencies.filter (fun d => d != pid) }
    else r).id = r.id := by
  split <;> rfl

theorem purge_status (uid pid : String) (r : Project) :
    (if r.user_id == uid then
      { r with dependencies := r.dependencies.filter (fun d => d != pid) }
    else r).status = r.status := by
  split <;> rfl

theorem purge_deps_of_user (uid pid : String) (r : Project) (hru : r.user_id = uid) :
    (if r.user_id == uid then
      { r with dependencies := r.dependencies.filter (fun d => d != pid) }
    else r).dependencies = r.dependencies.filter (fun d => d != pid) := by
  rw [if_pos (by simp [hru])]

/-- C3: deleting a project X owned by a user removes X\'s id from the
dependency list of every remaining project of that user and re-runs the
resolver in the same operation; in particular no project of the user mentions
X\'s id afterwards, X\'s row is gone, and a locked project whose only possibly
unmet prerequisite was X (all its other dependencies being ids of done
sibling projects) ends the operation unlocked. -/
theorem delete_project_spec (store : List Project) (pid uid : String)
    (hx : ∃ x ∈ store, x.id = pid ∧ x.user_id = uid) :
    delete_project store pid uid ≠ none ∧
    (∀ q ∈ (delete_project store pid uid).getD [], q.user_id = uid →
      pid ∉ q.dependencies) ∧
    (∀ q ∈ (delete_project store pid uid).getD [],
      ¬(q.id = pid ∧ q.user_id = uid)) ∧
    (∀ p ∈ store, p.user_id = uid → p.id ≠ pid →
      p.status = ProjectStatus.locked →
      (∀ d ∈ p.dependencies, d ≠ pid →
        ∃ r ∈ store, r.user_id = uid ∧ r.id = d ∧ r.status = ProjectStatus.done) →
      { p with dependencies := p.dependencies.filter (fun d => d != pid),
               status := ProjectStatus.unlocked } ∈
        (delete_project store pid uid).getD []) := by
  obtain ⟨x, hxmem, hxid, hxuid⟩ := hx
  have hfind : (get_project_by_id store pid uid).isSome := by
    rw [get_project_by_id, List.find?_isSome]
    exact ⟨x, hxmem, by simp [hxid, hxuid]⟩
  obtain ⟨y, hy⟩ := Option.isSome_iff_exists.mp hfind
  have hdel : delete_project store pid uid =
      some (check_project_dependencies
        ((store.map (fun q =>
          if q.user_id == uid then
            { q with dependencies := q.dependencies.filter (fun d => d != pid) }
          else q)).filter (fun q => !(q.id == pid && q.user_id == uid))) uid) := by
    simp [delete_project, hy]
  rw [hdel]
  refine ⟨by simp, ?_, ?_, ?_⟩
  · -- the deleted id is purged from every project of the user
    intro q hq huid
    simp only [Option.getD_some, check_project_dependencies, List.mem_map] at hq
    obtain ⟨q1, hq1, rfl⟩ := hq
    rw [List.mem_filter, List.mem_map] at hq1
    obtain ⟨⟨r, hr, rfl⟩, _⟩ := hq1
    rw [branch_resolve_user_id, purge_user_id] at huid
    rw [branch_resolve_dependencies, purge_deps_of_user uid pid r huid]
    simp [List.mem_filter]
  · -- the deleted row itself is gone
    intro q hq
    simp only [Option.getD_some, check_project_dependencies, List.mem_map] at hq
    obtain ⟨q1, hq1, rfl⟩ := hq
    rw [List.mem_filter] at hq1
    obtain ⟨_, hkeep⟩ := hq1
    rintro ⟨hqid, hquid⟩
    rw [branch_resolve_id] at hqid
    rw [branch_resolve_user_id] at hquid
    simp [hqid, hquid] at hkeep
  · -- a locked project whose other prerequisites are all done gets unlocked
    intro p hp hpu hpid hplock hdone
    simp only [Option.getD_some, check_project_dependencies, List.mem_map]
    refine ⟨{ p with dependencies := p.dependencies.filter (fun d => d != pid) }, ?_, ?_⟩
    · rw [List.mem_filter, List.mem_map]
      refine ⟨⟨p, hp, by rw [if_pos (by simp [hpu])]⟩, by simp [hpid]⟩
    · rw [if_pos (by simp [hpu])]
      rw [resolveProject_nonterminal _ _ (by simp [hplock]) (by simp [hplock])]
      have hmet : depsMet
          (completedIds (get_projects_by_user
            ((store.map (fun q =>
              if q.user_id == uid then
                { q with dependencies := q.dependencies.filter (fun d => d != pid) }
              else q)).filter (fun q => !(q.id == pid && q.user_id == uid))) uid))
          { p with dependencies := p.dependencies.filter (fun d => d != pid) } = true := by
        rw [depsMet_iff_sibling_done]
        intro d hd
        simp only [List.mem_filter, bne_iff_ne, ne_eq] at hd
        obtain ⟨hdp, hdpid⟩ := hd
        obtain ⟨r, hr, hru, hrid, hrdone⟩ := hdone d hdp hdpid
        refine ⟨{ r with dependencies := r.dependencies.filter (fun d => d != pid) },
          ?_, by simp [hru], by simp [hrid], by simp [hrdone]⟩
        rw [List.mem_filter, List.mem_map]
        exact ⟨⟨r, hr, by rw [if_pos (by simp [hru])]⟩, by simp [hrid, hdpid]⟩
      rw [hmet]
      rfl

/-- C3 witness: deleting project `x` from a concrete two-project set purges
it from the dependency list of the locked project `b`, which ends unlocked. -/
theorem delete_project_spec_witness :
    (∃ x ∈ ([⟨"x", "u1", "X", 1, ProjectStatus.unlocked, "c", "", (0, 0), [],
        [], [], [], none, none, none, none, 0, []⟩,
      ⟨"b", "u1", "B", 1, ProjectStatus.locked, "c", "", (0, 0), ["x"],
        [], [], [], none, none, none, none, 0, []⟩] : List Project),
      x.id = "x" ∧ x.user_id = "u1") ∧
    ({ (⟨"b", "u1", "B", 1, ProjectStatus.locked, "c", "", (0, 0), ["x"],
        [], [], [], none, none, none, none, 0, []⟩ : Project) with
      dependencies := (["x"] : List String).filter (fun d => d != "x"),
      status := ProjectStatus.unlocked } ∈
      (delete_project
        [⟨"x", "u1", "X", 1, ProjectStatus.unlocked, "c", "", (0, 0), [],
          [], [], [], none, none, none, none, 0, []⟩,
         ⟨"b", "u1", "B", 1, ProjectStatus.locked, "c", "", (0, 0), ["x"],
          [], [], [], none, none, none, none, 0, []⟩] "x" "u1").getD []) := by
  refine ⟨by decide, ?_⟩
  exact (delete_project_spec
    [⟨"x", "u1", "X", 1, ProjectStatus.unlocked, "c", "", (0, 0), [],
      [], [], [], none, none, none, none, 0, []⟩,
     ⟨"b", "u1", "B", 1, ProjectStatus.locked, "c", "", (0, 0), ["x"],
      [], [], [], none, none, none, none, 0, []⟩] "x" "u1"
    (by decide)).2.2.2
    ⟨"b", "u1", "B", 1, ProjectStatus.locked, "c", "", (0, 0), ["x"],
      [], [], [], none, none, none, none, 0, []⟩
    (by decide) rfl (by decide) rfl (by decide)

-- ---------------------------------------------------------------------------
-- Time aggregation (C4)
-- ---------------------------------------------------------------------------

theorem branch_resolve_sessions (c : List String) (uid : String) (p : Project) :
    (if p.user_id == uid then resolveProject c p else p).sessions = p.sessions := by
  split
  · exact resolveProject_sessions c p
  · rfl

theorem branch_resolve_time_spent_hours (c : List String) (uid : String) (p : Project) :
    (if p.user_id == uid then resolveProject c p else p).time_spent_hours =
      p.time_spent_hours := by
  split
  · exact resolveProject_time_spent_hours c p
  · rfl

theorem sessionsTotalSeconds_append (ss : List WorkSession) (s : WorkSession) :
    sessionsTotalSeconds (ss ++ [s]) = sessionsTotalSeconds ss + s.duration_seconds := by
  simp [sessionsTotalSeconds]

/-- C4: the project's `time_spent_hours` always equals the aggregator value
`round(sum(duration_seconds) / 3600, 1)` over its sessions — after adding a
work session, and after any project update whenever the project has at least
one session, whatever `time_spent_hours` value the caller supplied; the
resolver pass changes neither sessions nor the aggregate. On the concrete
fixtures, sessions of {3600, 1800} seconds yield exactly 1.5 hours, a single
3600-second session yields 1.0, and a single 5400-second session 1.5. -/
theorem time_aggregator_spec :
    (∀ (store : List Project) (pid uid sid : String) (sd : WorkSessionCreate)
        (out : List Project) (s : WorkSession),
      add_session_to_project store pid uid sid sd = some (out, s) →
      ∀ q ∈ out, q.id = pid → q.user_id = uid →
        q.time_spent_hours = recomputedHours q.sessions) ∧
    (∀ (store : List Project) (pid uid : String) (u : ProjectUpdate)
        (out : List Project),
      update_project store pid uid u = some out →
      ∀ q ∈ out, q.id = pid → q.user_id = uid → q.sessions ≠ [] →
        q.time_spent_hours = recomputedHours q.sessions) ∧
    recomputedHours
      [⟨"s1", "p1", 0, none, 3600, SessionType.manual, none, none⟩,
       ⟨"s2", "p1", 0, none, 1800, SessionType.manual, none, none⟩] = 3 / 2 ∧
    recomputedHours [⟨"s1", "p1", 0, none, 3600, SessionType.manual, none, none⟩] = 1 ∧
    recomputedHours [⟨"s1", "p1", 0, none, 5400, SessionType.manual, none, none⟩] = 3 / 2 := by
  refine ⟨?_, ?_, ?_, ?_, ?_⟩
  · intro store pid uid sid sd out s hadd q hq hqid hquid
    rw [add_session_to_project] at hadd
    cases hfind : get_project_by_id store pid uid with
    | none => rw [hfind] at hadd; exact absurd hadd (by simp)
    | some p0 =>
      rw [hfind] at hadd
      simp only [Option.some_inj, Prod.mk.injEq] at hadd
      obtain ⟨hout, hs⟩ := hadd
      rw [← hout] at hq
      rw [List.mem_map] at hq
      obtain ⟨r, hr, rfl⟩ := hq
      by_cases hc : (r.id == pid && r.user_id == uid)
      · rw [if_pos hc]
        show pythonRound1 _ = recomputedHours (r.sessions ++ [mkWorkSession sid pid sd])
        rw [recomputedHours, sessionsTotalSeconds_append]
      · rw [if_neg hc] at hqid hquid
        exact absurd (by simp [hqid, hquid]) hc
  · intro store pid uid u out hupd q hq hqid hquid hqsess
    rw [update_project] at hupd
    cases hfind : get_project_by_id store pid uid with
    | none => rw [hfind] at hupd; exact absurd hupd (by simp)
    | some p0 =>
      rw [hfind] at hupd
      simp only [Option.some_inj] at hupd
      rw [← hupd] at hq
      simp only [check_project_dependencies, List.mem_map] at hq
      obtain ⟨q1, hq1, rfl⟩ := hq
      rw [branch_resolve_id] at hqid
      rw [branch_resolve_user_id] at hquid
      rw [branch_resolve_sessions] at hqsess
      rw [branch_resolve_time_spent_hours, branch_resolve_sessions]
      obtain ⟨r, hr, rfl⟩ := hq1
      by_cases hc : (r.id == pid && r.user_id == uid)
      · rw [if_pos hc] at hqsess ⊢
        show (if r.sessions.isEmpty then u.time_spent_hours.getD r.time_spent_hours
          else recomputedHours r.sessions) = _
        have : (applyUpdateData r u).sessions = r.sessions := rfl
        rw [this] at hqsess ⊢
        rw [if_neg (by simpa [List.isEmpty_iff] using hqsess)]
      · rw [if_neg hc] at hqid hquid
        exact absurd (by simp [hqid, hquid]) hc
  · show pythonRound1 ((((3600 + (1800 + 0) : ℤ)) : ℚ) / 3600) = 3 / 2
    norm_num [pythonRound1, roundHalfToEven]
  · show pythonRound1 ((((3600 + 0 : ℤ)) : ℚ) / 3600) = 1
    norm_num [pythonRound1, roundHalfToEven]
  · show pythonRound1 ((((5400 + 0 : ℤ)) : ℚ) / 3600) = 3 / 2
    norm_num [pythonRound1, roundHalfToEven]

/-- C4 witness: adding a 3600-second session to a concrete fresh project
succeeds and leaves `time_spent_hours` equal to the aggregator value. -/
theorem time_aggregator_spec_witness :
    (add_session_to_project
      [⟨"p1", "u1", "T", 1, ProjectStatus.unlocked, "c", "", (0, 0), [],
        [], [], [], none, none, none, none, 0, []⟩] "p1" "u1" "s1"
      ⟨0, none, 3600, SessionType.manual, none, none⟩ =
      some ([applyAddSession
        ⟨"p1", "u1", "T", 1, ProjectStatus.unlocked, "c", "", (0, 0), [],
          [], [], [], none, none, none, none, 0, []⟩
        ⟨"s1", "p1", 0, none, 3600, SessionType.manual, none, none⟩],
        ⟨"s1", "p1", 0, none, 3600, SessionType.manual, none, none⟩)) ∧
    (applyAddSession
      ⟨"p1", "u1", "T", 1, ProjectStatus.unlocked, "c", "", (0, 0), [],
        [], [], [], none, none, none, none, 0, []⟩
      ⟨"s1", "p1", 0, none, 3600, SessionType.manual, none, none⟩).time_spent_hours =
      recomputedHours (applyAddSession
        ⟨"p1", "u1", "T", 1, ProjectStatus.unlocked, "c", "", (0, 0), [],
          [], [], [], none, none, none, none, 0, []⟩
        ⟨"s1", "p1", 0, none, 3600, SessionType.manual, none, none⟩).sessions := by
  refine ⟨rfl, ?_⟩
  exact time_aggregator_spec.1
    [⟨"p1", "u1", "T", 1, ProjectStatus.unlocked, "c", "", (0, 0), [],
      [], [], [], none, none, none, none, 0, []⟩] "p1" "u1" "s1"
    ⟨0, none, 3600, SessionType.manual, none, none⟩ _ _ rfl _
    (List.mem_singleton.mpr rfl) rfl rfl

-- ---------------------------------------------------------------------------
-- Cross-user isolation (C5)
-- ---------------------------------------------------------------------------

/-- C5: every scoped entity-store operation on a project (or its sessions)
performed as user `u1` against a project id owned by a different user `u2`
yields exactly the not-found outcome — `none` for the reads and writes, `[]`
for the session listing — which is the same outcome as for an id that exists
for no user at all, so existence is never confirmed to another user and the
entity's data is never returned. -/
theorem cross_user_isolation (store : List Project) (table : List WorkSession)
    (pid u1 u2 sid : String) (u : ProjectUpdate) (sd : WorkSessionCreate)
    (hne : u1 ≠ u2) (hown : ∀ p ∈ store, p.id = pid → p.user_id = u2) :
    get_project_by_id store pid u1 = none ∧
    get_sessions_by_project store table pid u1 = [] ∧
    update_project store pid u1 u = none ∧
    delete_project store pid u1 = none ∧
    add_session_to_project store pid u1 sid sd = none ∧
    (∀ nid, (∀ p ∈ store, p.id ≠ nid) →
      get_project_by_id store nid u1 = none ∧
      get_sessions_by_project store table nid u1 = []) := by
  have hnone : get_project_by_id store pid u1 = none := by
    rw [get_project_by_id, List.find?_eq_none]
    intro p hp
    simp only [Bool.and_eq_true, beq_iff_eq, not_and]
    intro hid hu
    have h2 := hown p hp hid
    rw [hu] at h2
    exact hne h2
  refine ⟨hnone, ?_, ?_, ?_, ?_, ?_⟩
  · simp only [get_sessions_by_project, hnone]
  · simp only [update_project, hnone]
  · simp only [delete_project, hnone]
  · simp only [add_session_to_project, hnone]
  · intro nid hnid
    have hn2 : get_project_by_id store nid u1 = none := by
      rw [get_project_by_id, List.find?_eq_none]
      intro p hp
      simp only [Bool.and_eq_true, beq_iff_eq, not_and]
      intro hid
      exact absurd hid (hnid p hp)
    exact ⟨hn2, by simp only [get_sessions_by_project, hn2]⟩

/-- C5 witness: with a single project owned by `u2`, every operation
attempted by `u1` on that project id returns the not-found outcome. -/
theorem cross_user_isolation_witness :
    ("u1" ≠ "u2") ∧
    (∀ p ∈ ([⟨"p", "u2", "T", 1, ProjectStatus.unlocked, "c", "", (0, 0), [],
        [], [], [], none, none, none, none, 0, []⟩] : List Project),
      p.id = "p" → p.user_id = "u2") ∧
    get_project_by_id
      [⟨"p", "u2", "T", 1, ProjectStatus.unlocked, "c", "", (0, 0), [],
        [], [], [], none, none, none, none, 0, []⟩] "p" "u1" = none ∧
    get_sessions_by_project
      [⟨"p", "u2", "T", 1, ProjectStatus.unlocked, "c", "", (0, 0), [],
        [], [], [], none, none, none, none, 0, []⟩] [] "p" "u1" = [] ∧
    update_project
      [⟨"p", "u2", "T", 1, ProjectStatus.unlocked, "c", "", (0, 0), [],
        [], [], [], none, none, none, none, 0, []⟩] "p" "u1"
      ⟨none, none, none, none, none, none, none, none, none, none, none, none,
        none, none, none⟩ = none ∧
    delete_project
      [⟨"p", "u2", "T", 1, ProjectStatus.unlocked, "c", "", (0, 0), [],
        [], [], [], none, none, none, none, 0, []⟩] "p" "u1" = none ∧
    add_session_to_project
      [⟨"p", "u2", "T", 1, ProjectStatus.unlocked, "c", "", (0, 0), [],
        [], [], [], none, none, none, none, 0, []⟩] "p" "u1" "s"
      ⟨0, none, 0, SessionType.manual, none, none⟩ = none := by
  have h := cross_user_isolation
    [⟨"p", "u2", "T", 1, ProjectStatus.unlocked, "c", "", (0, 0), [],
      [], [], [], none, none, none, none, 0, []⟩] [] "p" "u1" "u2" "s"
    ⟨none, none, none, none, none, none, none, none, none, none, none, none,
      none, none, none⟩
    ⟨0, none, 0, SessionType.manual, none, none⟩
    (by decide) (by decide)
  exact ⟨by decide, by decide, h.1, h.2.1, h.2.2.1, h.2.2.2.1, h.2.2.2.2.1⟩

-- ---------------------------------------------------------------------------
-- Users, profiles and the public-profile read path (C6, C8)
-- ---------------------------------------------------------------------------

/-- `User` row from `app/models.py`; `created_at` is carried as the ISO
string the route returns (`user.created_at.isoformat()`). -/
structure UserRec where
  id : String
  email : String
  username : String
  created_at : String
deriving DecidableEq

/-- `UserProfile` row: `xp`, `level`, `unlocked_badges` from `app/models.py`;
the customization columns `avatar_url`, `banner_url`, `is_public`,
`cv_config` are those added by alembic migration 0002. -/
structure UserProfileRec where
  id : String
  user_id : String
  xp : Int
  level : Int
  unlocked_badges : List String
  avatar_url : Option String
  banner_url : Option String
  is_public : Bool
  cv_config : Option String
deriving DecidableEq

/-- Modelled from the spec: `crud.get_public_profile_by_username` is called by
`routes/users.py` but is absent from the source tree. Per the spec's
public-profile read path, the user and profile pair is returned only when a
user with the given username exists and the profile's visibility flag is
public; otherwise the not-found result, indistinguishable from a nonexistent
username. -/
def get_public_profile_by_username (users : List UserRec)
    (profiles : List UserProfileRec) (username : String) :
    Option (UserRec × UserProfileRec) :=
  match users.find? (fun u => u.username == username) with
  | none => none
  | some u =>
    match profiles.find? (fun pr => pr.user_id == u.id) with
    | none => none
    | some pr => if pr.is_public then some (u, pr) else none

/-- The response body built by `get_public_profile` (`routes/users.py`). -/
structure PublicProfilePayload where
  username : String
  createdAt : String
  xp : Int
  level : Int
  unlockedBadges : List String
  avatarUrl : Option String
  bannerUrl : Option String
  cvConfig : Option String
deriving DecidableEq

/-- `get_public_profile` route (`routes/users.py`): 404 (`none`) when the
crud lookup yields nothing, otherwise the `{user, profile}` payload. -/
def get_public_profile (users : List UserRec) (profiles : List UserProfileRec)
    (username : String) : Option PublicProfilePayload :=
  match get_public_profile_by_username users profiles username with
  | none => none
  | some (u, pr) =>
    some ⟨u.username, u.created_at, pr.xp, pr.level, pr.unlocked_badges,
      pr.avatar_url, pr.banner_url, pr.cv_config⟩

/-- `AddXPRequest` schema (`schemas.py`): `amount: int = Field(ge=0)`;
pydantic rejects a negative amount with a validation error before the route
handler runs. -/
def validateAddXPAmount (amount : Int) : Option Int :=
  if 0 ≤ amount then some amount else none

/-- `add_xp(db, user_id, amount)` from `crud.py`: `profile.xp += amount`. -/
def add_xp (profile : UserProfileRec) (amount : Int) : UserProfileRec :=
  { profile with xp := profile.xp + amount }

/-- The add-XP operation as exposed by `routes/profile.py`: schema validation
first (422 on a negative amount, with no state change), then the crud
update. -/
def add_xp_route (profile : UserProfileRec) (amount : Int) : Option UserProfileRec :=
  match validateAddXPAmount amount with
  | none => none
  | some a => some (add_xp profile a)

-- ---------------------------------------------------------------------------
-- Gamification constants (C9)
-- ---------------------------------------------------------------------------

/-- `get_next_level_xp(level)` from `app/constants.py`:
`int(100 * (level ** 1.5))`. The float computation is modelled exactly: for
`level ≥ 0` the truncated value is `⌊100·level^1.5⌋ = ⌊√(10000·level³)⌋`,
computed here as `Nat.sqrt (10000 * level ^ 3)`. -/
def get_next_level_xp (level : ℕ) : ℕ :=
  Nat.sqrt (10000 * level ^ 3)

-- ---------------------------------------------------------------------------
-- Seed catalog, project creation and the primary-key constraint (C7, C10)
-- ---------------------------------------------------------------------------

/-- One entry of `INITIAL_DATASET` (`app/constants.py`), with exactly the
keys `seed_initial_projects` reads (`complexity`, `notes` and
`time_spent_hours` are read with `.get`, defaulting to `None`/`0`). -/
structure SeedProject where
  id : String
  title : String
  level : Int
  status : ProjectStatus
  category : String
  position : ℚ × ℚ
  dependencies : List String
  description : String
  tech_stack : List String
  complexity : Option Int
  notes : Option String
  time_spent_hours : ℚ
deriving DecidableEq

/-- `INITIAL_DATASET` from `app/constants.py`. -/
def INITIAL_DATASET : List SeedProject :=
  [⟨"p1_1", "Network Packet Analyzer", 1, ProjectStatus.done, "Network", (100, 100),
    [], "Create a Wireshark-lite in Python using raw sockets.",
    ["Python", "Scapy"], some 2,
    some "## Key Learnings\n- Understanding OSI Layer 2 vs Layer 3\n- Raw socket manipulation in Linux requires root privileges.",
    12⟩,
   ⟨"p1_2", "Custom DHCP Server", 1, ProjectStatus.unlocked, "Network", (350, 100),
    ["p1_1"], "Understand low-level IP assignment and DORA process.",
    ["Python", "Sockets"], some 3, none, 0⟩,
   ⟨"p1_3", "Subnet Calculator", 1, ProjectStatus.locked, "Network", (600, 100),
    ["p1_2"], "VLSM and IPAM calculation tool.",
    ["Flask", "Bootstrap"], some 1, none, 0⟩,
   ⟨"p2_1", "Homelab Infra", 2, ProjectStatus.locked, "Infra", (100, 300),
    ["p1_1"], "The heart of your personal infrastructure.",
    ["Docker", "Ansible", "Pi"], some 3, none, 0⟩,
   ⟨"p2_2", "AWS 3-Tier App", 2, ProjectStatus.locked, "Cloud", (350, 300),
    ["p2_1"], "Clean Cloud deployment via Terraform (IaC).",
    ["AWS", "Terraform"], some 3, none, 0⟩,
   ⟨"p2_3", "K8s Prod Cluster", 2, ProjectStatus.locked, "Cloud", (600, 300),
    ["p2_1", "p2_2"], "Advanced orchestration and GitOps implementation.",
    ["Kubernetes", "ArgoCD"], some 5, none, 0⟩,
   ⟨"p2_4", "SOC-in-a-Box", 2, ProjectStatus.locked, "Security", (850, 300),
    ["p2_1"], "Security monitoring and threat detection.",
    ["ELK", "Wazuh"], some 4, none, 0⟩,
   ⟨"p3_1", "Multi-Cloud K8s", 3, ProjectStatus.locked, "Cloud", (350, 500),
    ["p2_3"], "Cluster federation and service mesh.",
    ["Rancher", "Istio"], some 5, none, 0⟩,
   ⟨"p3_2", "Zero Trust Network", 3, ProjectStatus.locked, "Security", (600, 500),
    ["p2_4"], "Modern security architecture without classic VPNs.",
    ["BeyondCorp", "WireGuard"], some 4, none, 0⟩,
   ⟨"p4_1", "Smart Factory (Capstone)", 4, ProjectStatus.locked, "Expert", (475, 700),
    ["p3_1", "p3_2"], "The Final Boss: IT + OT Convergence.",
    ["NSX-T", "IoT", "5G"], some 5, none, 0⟩]

/-- The `Project(...)` row built by `seed_initial_projects` (`crud.py`) for
one catalog entry: the catalog's `status` is copied verbatim
(`status=ProjectStatus(project_data["status"])`), checklist and resources are
empty, and the `priority` column takes its model default. -/
def seedProject (uid : String) (sd : SeedProject) : Project :=
  ⟨sd.id, uid, sd.title, sd.level, sd.status, sd.category, sd.description,
   sd.position, sd.dependencies, sd.tech_stack, [], [], sd.complexity,
   some Priority.medium, none, sd.notes, sd.time_spent_hours, []⟩

/-- `seed_initial_projects(db, user_id)` from `crud.py`: one row per catalog
entry; no resolver pass is invoked afterwards. -/
def seed_initial_projects (uid : String) : List Project :=
  INITIAL_DATASET.map (seedProject uid)

/-- `ProjectCreate` request schema from `app/schemas.py` (it has no `status`,
`checklist` or `resources` field). -/
structure ProjectCreate where
  id : Option String
  title : String
  level : Int
  category : String
  description : String
  position : ℚ × ℚ
  dependencies : List String
  tech_stack : List String
  complexity : Option Int
  priority : Option Priority
deriving DecidableEq

/-- The `Project(...)` row built by `create_project` (`crud.py`): always
`status=LOCKED` and empty checklist/resources regardless of caller input;
`freshId` stands for the generated uuid fragment used when the caller
supplies no id (`custom_{generate_id()[:8]}`). -/
def mkNewProject (uid : String) (data : ProjectCreate) (freshId : String) : Project :=
  ⟨data.id.getD ("custom_" ++ freshId), uid, data.title, data.level,
   ProjectStatus.locked, data.category, data.description, data.position,
   data.dependencies, data.tech_stack, [], [], data.complexity, data.priority,
   none, none, 0, []⟩

/-- `create_project(db, user_id, project_data)` from `crud.py`: insert the
new row, then run a resolver pass over the user's project set. -/
def create_project (store : List Project) (uid : String) (data : ProjectCreate)
    (freshId : String) : List Project :=
  check_project_dependencies (store ++ [mkNewProject uid data freshId]) uid

/-- The primary-key constraint on `projects.id` (`models.py`: `id` alone is
the primary key): inserting a row whose id already exists anywhere in the
table fails, regardless of the owning user. -/
def insertProject (store : List Project) (p : Project) : Option (List Project) :=
  if store.any (fun q => q.id == p.id) then none else some (store ++ [p])

/-- Registration's seeding step (`routes/auth.py` → `seed_initial_projects`)
under the primary-key constraint: the catalog rows are inserted one by one. -/
def seedUserStore (store : List Project) (uid : String) : Option (List Project) :=
  (seed_initial_projects uid).foldl
    (fun acc p => acc.bind (fun s => insertProject s p)) (some store)

-- ---------------------------------------------------------------------------
-- Public-profile read path (C6)
-- ---------------------------------------------------------------------------

/-- C6: under the database uniqueness constraints (usernames unique, one
profile per user), the public-profile read returns the
`{username, createdAt}` plus `{xp, level, unlockedBadges, avatarUrl,
bannerUrl, cvConfig}` payload exactly when a user with the given username
exists and their profile's visibility flag is public; for a nonexistent
username, and equally for an existing user whose profile is private, it
returns the same not-found result `none`, so the two cases are
indistinguishable. -/
theorem public_profile_read_spec (users : List UserRec)
    (profiles : List UserProfileRec) (uname : String)
    (hU : (users.map (fun u => u.username)).Nodup)
    (hP : (profiles.map (fun pr => pr.user_id)).Nodup) :
    (∀ pay, get_public_profile users profiles uname = some pay ↔
      ∃ u ∈ users, u.username = uname ∧ ∃ pr ∈ profiles, pr.user_id = u.id ∧
        pr.is_public = true ∧
        pay = ⟨u.username, u.created_at, pr.xp, pr.level, pr.unlocked_badges,
          pr.avatar_url, pr.banner_url, pr.cv_config⟩) ∧
    ((∀ u ∈ users, u.username ≠ uname) →
      get_public_profile users profiles uname = none) ∧
    (∀ u ∈ users, u.username = uname → ∀ pr ∈ profiles, pr.user_id = u.id →
      pr.is_public = false →
      get_public_profile users profiles uname = none) := by
  refine ⟨?_, ?_, ?_⟩
  · intro pay
    constructor
    · intro h
      cases hf1 : users.find? (fun u => u.username == uname) with
      | none => simp [get_public_profile, get_public_profile_by_username, hf1] at h
      | some u0 =>
        cases hf2 : profiles.find? (fun pr => pr.user_id == u0.id) with
        | none => simp [get_public_profile, get_public_profile_by_username, hf1, hf2] at h
        | some pr0 =>
          by_cases hpub : pr0.is_public
          · simp only [get_public_profile, get_public_profile_by_username,
              hf1, hf2, if_pos hpub, Option.some_inj] at h
            refine ⟨u0, List.mem_of_find?_eq_some hf1,
              by simpa using List.find?_some hf1,
              pr0, List.mem_of_find?_eq_some hf2,
              by simpa using List.find?_some hf2, hpub, h.symm⟩
          · simp [get_public_profile, get_public_profile_by_username,
              hf1, hf2, hpub] at h
    · rintro ⟨u, hu, huname, pr, hpr, hprid, hpub, rfl⟩
      cases hf1 : users.find? (fun v => v.username == uname) with
      | none =>
        exact absurd huname (by simpa using List.find?_eq_none.mp hf1 u hu)
      | some u0 =>
        have hu0 : u0 = u := List.inj_on_of_nodup_map hU
          (List.mem_of_find?_eq_some hf1) hu
          (by rw [huname]; exact (by simpa using List.find?_some hf1 : u0.username = uname).symm ▸ rfl)
        subst hu0
        cases hf2 : profiles.find? (fun q => q.user_id == u0.id) with
        | none =>
          exact absurd hprid (by simpa using List.find?_eq_none.mp hf2 pr hpr)
        | some pr0 =>
          have hpr0 : pr0 = pr := List.inj_on_of_nodup_map hP
            (List.mem_of_find?_eq_some hf2) hpr
            (by rw [hprid]; simpa using List.find?_some hf2)
          subst hpr0
          simp [get_public_profile, get_public_profile_by_username, hf1, hf2, hpub]
  · intro hnone
    have hf1 : users.find? (fun u => u.username == uname) = none :=
      List.find?_eq_none.mpr (fun u hu => by simp [hnone u hu])
    simp [get_public_profile, get_public_profile_by_username, hf1]
  · intro u hu huname pr hpr hprid hpub
    cases hf1 : users.find? (fun v => v.username == uname) with
    | none => simp [get_public_profile, get_public_profile_by_username, hf1]
    | some u0 =>
      have hu0 : u0 = u := List.inj_on_of_nodup_map hU
        (List.mem_of_find?_eq_some hf1) hu
        (by rw [huname]; simpa using List.find?_some hf1)
      subst hu0
      cases hf2 : profiles.find? (fun q => q.user_id == u0.id) with
      | none => simp [get_public_profile, get_public_profile_by_username, hf1, hf2]
      | some pr0 =>
        have hpr0 : pr0 = pr := List.inj_on_of_nodup_map hP
          (List.mem_of_find?_eq_some hf2) hpr
          (by rw [hprid]; simpa using List.find?_some hf2)
        subst hpr0
        simp [get_public_profile, get_public_profile_by_username, hf1, hf2, hpub]

/-- C6 witness: one public profile is returned in full; flipping nothing
else, a private profile and an unknown username both give `none`. -/
theorem public_profile_read_spec_witness :
    (([⟨"u1", "a@b.c", "alice", "2026-01-01"⟩] : List UserRec).map
      (fun u => u.username)).Nodup ∧
    (([⟨"pr1", "u1", 10, 1, [], none, none, true, none⟩] : List UserProfileRec).map
      (fun pr => pr.user_id)).Nodup ∧
    get_public_profile [⟨"u1", "a@b.c", "alice", "2026-01-01"⟩]
      [⟨"pr1", "u1", 10, 1, [], none, none, true, none⟩] "alice" =
      some ⟨"alice", "2026-01-01", 10, 1, [], none, none, none⟩ := by
  refine ⟨by decide, by decide, ?_⟩
  exact ((public_profile_read_spec [⟨"u1", "a@b.c", "alice", "2026-01-01"⟩]
    [⟨"pr1", "u1", 10, 1, [], none, none, true, none⟩] "alice"
    (by decide) (by decide)).1 _).mpr
    ⟨⟨"u1", "a@b.c", "alice", "2026-01-01"⟩, by decide, rfl,
     ⟨"pr1", "u1", 10, 1, [], none, none, true, none⟩, by decide, rfl, rfl, rfl⟩

-- ---------------------------------------------------------------------------
-- Add-XP validation and monotonicity (C8)
-- ---------------------------------------------------------------------------

/-- C8: the add-XP operation rejects every negative amount as a validation
error before any state change (no clamping, no partial write), sets
`xp := xp + amount` for every non-negative amount, and therefore `xp` never
decreases through a successful add-XP call. -/
theorem add_xp_spec (profile : UserProfileRec) (amount : Int) :
    (amount < 0 → add_xp_route profile amount = none) ∧
    (0 ≤ amount →
      add_xp_route profile amount =
        some { profile with xp := profile.xp + amount }) ∧
    (∀ out, add_xp_route profile amount = some out → profile.xp ≤ out.xp) := by
  refine ⟨?_, ?_, ?_⟩
  · intro h
    simp [add_xp_route, validateAddXPAmount, not_le.mpr h]
  · intro h
    simp [add_xp_route, validateAddXPAmount, h, add_xp]
  · intro out h
    by_cases hge : 0 ≤ amount
    · simp only [add_xp_route, validateAddXPAmount, if_pos hge,
        Option.some_inj] at h
      rw [← h]
      exact le_add_of_nonneg_right hge
    · simp [add_xp_route, validateAddXPAmount, hge] at h

/-- C8 witness: a negative amount is rejected with no write; a non-negative
amount adds exactly, and the result does not decrease `xp`. -/
theorem add_xp_spec_witness :
    ((-5 : ℤ) < 0) ∧
    add_xp_route ⟨"pr1", "u1", 10, 1, [], none, none, true, none⟩ (-5) = none ∧
    ((0 : ℤ) ≤ 25) ∧
    add_xp_route ⟨"pr1", "u1", 10, 1, [], none, none, true, none⟩ 25 =
      some ⟨"pr1", "u1", 35, 1, [], none, none, true, none⟩ := by
  refine ⟨by decide, (add_xp_spec _ _).1 (by decide), by decide, ?_⟩
  rw [(add_xp_spec ⟨"pr1", "u1", 10, 1, [], none, none, true, none⟩ 25).2.1 (by decide)]
  rfl

-- ---------------------------------------------------------------------------
-- XP-for-level formula (C9)
-- ---------------------------------------------------------------------------

/-- C9: for every level ≥ 0, `get_next_level_xp level` equals
`⌊100 · level^1.5⌋` (real-number exponentiation), and in particular the
values at 0, 1, 2 are 0, 100, 282. -/
theorem xp_for_level_spec (level : ℕ) :
    ((get_next_level_xp level : ℤ) = ⌊(100 : ℝ) * (level : ℝ) ^ (1.5 : ℝ)⌋) ∧
    get_next_level_xp 0 = 0 ∧
    get_next_level_xp 1 = 100 ∧
    get_next_level_xp 2 = 282 := by
  refine ⟨?_, by norm_num [get_next_level_xp], by norm_num [get_next_level_xp],
    by norm_num [get_next_level_xp]⟩
  have hl : (0 : ℝ) ≤ (level : ℝ) := Nat.cast_nonneg level
  have h1 : (level : ℝ) ^ (1.5 : ℝ) = Real.sqrt ((level : ℝ) ^ (3 : ℕ)) := by
    rw [show (1.5 : ℝ) = ((3 : ℕ) : ℝ) * (1 / 2 : ℝ) by norm_num,
      Real.rpow_mul hl, Real.rpow_natCast, ← Real.sqrt_eq_rpow]
  have h2 : (100 : ℝ) * Real.sqrt ((level : ℝ) ^ (3 : ℕ)) =
      Real.sqrt (((10000 * level ^ 3 : ℕ) : ℝ)) := by
    have hc : ((10000 * level ^ 3 : ℕ) : ℝ) = (100 : ℝ) ^ 2 * (level : ℝ) ^ (3 : ℕ) := by
      push_cast
      ring
    rw [hc, Real.sqrt_mul (by positivity), Real.sqrt_sq (by norm_num)]
  rw [h1, h2, Real.floor_real_sqrt_eq_nat_sqrt]
  rfl

-- ---------------------------------------------------------------------------
-- Seed statuses are NOT reset (C7) and project ids are globally unique (C10)
-- ---------------------------------------------------------------------------

/-- C7 counterexample: seeding copies the catalog's status fields verbatim —
the first seeded project comes out with status `done` — whereas the claimed
policy (reset every status to `locked`, then one resolver pass, as direct
creation does) would produce a different status list for the same user. -/
theorem seed_status_counterexample :
    (((seed_initial_projects "u1").map Project.status ≠
      (check_project_dependencies
        ((seed_initial_projects "u1").map
          (fun p => { p with status := ProjectStatus.locked })) "u1").map
        Project.status)) ∧
    ((seed_initial_projects "u1").map Project.status)[0]? =
      some ProjectStatus.done := by
  decide

/-- C7 amended: `seed_initial_projects` carries every catalog status field
verbatim into the new user's rows (`done` for p1_1, `unlocked` for p1_2,
`locked` for the rest) and invokes no resolver pass, while a direct
`create_project` forces status `locked` and empty checklist/resources
regardless of caller input and then immediately runs the resolver. -/
theorem seed_and_create_status_policy (uid : String) (store : List Project)
    (data : ProjectCreate) (freshId : String) :
    ((seed_initial_projects uid).map Project.status =
      [ProjectStatus.done, ProjectStatus.unlocked, ProjectStatus.locked,
       ProjectStatus.locked, ProjectStatus.locked, ProjectStatus.locked,
       ProjectStatus.locked, ProjectStatus.locked, ProjectStatus.locked,
       ProjectStatus.locked]) ∧
    ((seed_initial_projects uid).map Project.status =
      INITIAL_DATASET.map SeedProject.status) ∧
    ((mkNewProject uid data freshId).status = ProjectStatus.locked) ∧
    ((mkNewProject uid data freshId).checklist = []) ∧
    ((mkNewProject uid data freshId).resources = []) ∧
    (create_project store uid data freshId =
      check_project_dependencies (store ++ [mkNewProject uid data freshId]) uid) :=
  ⟨rfl, rfl, rfl, rfl, rfl, rfl⟩

/-- C10: the store keys projects by `id` alone while registration seeds every
user with the same fixed catalog ids, so seeding a first user succeeds but
seeding any second user fails on the primary-key constraint (its catalog ids
all already exist); consequently, in any store satisfying the id-uniqueness
invariant, two rows with the same id are the same row — two distinct users
can never both own a project with a given id. -/
theorem project_id_global_uniqueness (u1 u2 : String) (hne : u1 ≠ u2) :
    (seedUserStore [] u1 = some (seed_initial_projects u1)) ∧
    (seedUserStore (seed_initial_projects u1) u2 = none) ∧
    ((seed_initial_projects u1).map Project.id =
      (seed_initial_projects u2).map Project.id) ∧
    (∀ p ∈ seed_initial_projects u2, ∃ q ∈ seed_initial_projects u1,
      q.id = p.id) ∧
    (∀ store : List Project, (store.map Project.id).Nodup →
      ∀ p ∈ store, ∀ q ∈ store, p.id = q.id → p = q) := by
  refine ⟨rfl, rfl, rfl, ?_, ?_⟩
  · intro p hp
    obtain ⟨sd, hsd, rfl⟩ := List.mem_map.mp hp
    exact ⟨seedProject u1 sd, List.mem_map_of_mem _ hsd, rfl⟩
  · intro store hnd p hp q hq hid
    exact List.inj_on_of_nodup_map hnd hp hq hid

/-- C10 witness: seeding `alice` into an empty store succeeds; immediately
seeding `bob` afterwards fails on the first duplicated catalog id. -/
theorem project_id_global_uniqueness_witness :
    ("alice" ≠ "bob") ∧
    seedUserStore [] "alice" = some (seed_initial_projects "alice") ∧
    seedUserStore (seed_initial_projects "alice") "bob" = none := by
  have h := project_id_global_uniqueness "alice" "bob" (by decide)
  exact ⟨by decide, h.1, h.2.1⟩

end TechRoadmap
